import Mathlib

/-
Verification of the r.import.worker GRASS addon (src/r.import.worker.py).

The development shallowly embeds the main function of the worker: the
option and flag forwarding that builds the r.import command line, the
retry loop that classifies the combined stdout/stderr text of each
attempt, the final artifact-existence check, and the GISRC
session-pointer lifecycle.  External effects (the r.import subprocess,
the mapset lookups) are oracles supplied as inputs: the combined output
of each attempt is a function from the attempt number to a pair of
decoded stdout/stderr strings, and the two find_file lookups are two
booleans recording whether the lookup returned a file.
-/

/-- Boolean contiguous-substring test on character lists; this models the
Python operator testing whether one string occurs inside another. -/
def containsSub (needle : List Char) : List Char → Bool
  | [] => needle.isEmpty
  | c :: rest => needle.isPrefixOf (c :: rest) || containsSub needle rest

/-- Substring containment on strings, modelling the Python membership test
of a needle string inside a haystack string. -/
def strIn (needle haystack : String) : Bool :=
  containsSub needle.data haystack.data

/-- The full progress ladder that a successful r.import run prints
(source lines 236-239, the three adjacent string literals joined). -/
def ladder : String :=
  "\n0..3..6..9..12..15..18..21..24..27..30..33..36..39..42..45..48..51..54..57..60..63..66..69..72..75..78..81..84..87..90..93..96..99..100\n"

/-- No-overlap marker tested on the combined output (source line 243). -/
def noOverlapMsg : String :=
  "Input raster does not overlap current computational region"

/-- Empty-reprojection marker, parameterized by the configured output
name (source line 256). -/
def emptyMsg (out : String) : String :=
  "The reprojected raster <" ++ out ++ "> is empty"

/-- Transient compression-library token (source line 266). -/
def gzipToken : String := "cpl_vsil_gzip.cpp"

/-- HTTP service-unavailable token (source line 275). -/
def s503 : String := "503"

/-- Warning emitted by the no-overlap branch (source lines 246-252). -/
def noOverlapWarning (inp : String) : String :=
  "Input raster map <" ++ inp ++ "> does not overlap with current computational region"

/-- Warning emitted by the empty-reprojection branch (source lines 259-264). -/
def emptyWarning (inp : String) : String :=
  "Only no-data values found in current region for input raster <" ++ inp ++ ">"

/-- Warning emitted by the compression-library retry branch (source lines 269-274). -/
def gzipWarning (tries m : Nat) (inp : String) : String :=
  "Retrying " ++ toString tries ++ "/" ++ toString m ++ " (" ++ inp ++ ") ..."

/-- Base message of the 503 branch and of the generic non-empty branch
(source lines 276 and 285). -/
def genericMsg (resp inp : String) : String :=
  resp ++ " (" ++ inp ++ ")"

/-- Message of the 503 branch and of the generic non-empty branch when a
retry is scheduled (source lines 280 and 289). -/
def genericRetryMsg (resp inp : String) (tries m : Nat) : String :=
  genericMsg resp inp ++ " Retrying " ++ toString tries ++ "/" ++ toString m ++ " ..."

/-- The seven classification rules of the if/elif chain in the retry loop
(source lines 235-294), in source order. -/
inductive Rule
  | successLadder
  | noOverlap
  | emptyResult
  | gzipRetry
  | http503
  | otherNonEmpty
  | blank
deriving DecidableEq

/-- Effect of one classification: which rule fired, whether the loop
continues, whether the noOverlap flag is set, the sleep performed (in
seconds) before the next attempt, and the warnings logged. -/
structure StepOutcome where
  rule : Rule
  nextTry : Bool
  setsNoOverlap : Bool
  sleep : Option Nat
  warnings : List String
deriving DecidableEq

/-- Classification of the combined output text of one attempt, a direct
translation of the if/elif chain of source lines 235-294.  The argument
tries is the 1-based number of the attempt just performed and m is the
max_tries constant. -/
def classify (resp out inp : String) (tries m : Nat) : StepOutcome :=
  if strIn ladder resp = true then
    ⟨Rule.successLadder, false, false, none, []⟩
  else if strIn noOverlapMsg resp = true then
    ⟨Rule.noOverlap, false, true, none, [noOverlapWarning inp]⟩
  else if strIn (emptyMsg out) resp = true then
    ⟨Rule.emptyResult, false, false, none, [emptyWarning inp]⟩
  else if strIn gzipToken resp = true ∧ tries < m then
    ⟨Rule.gzipRetry, true, false, some 10, [gzipWarning tries m inp]⟩
  else if strIn s503 resp = true then
    if tries < m then
      ⟨Rule.http503, true, false, some 10, [genericRetryMsg resp inp tries m]⟩
    else
      ⟨Rule.http503, false, false, none, [genericMsg resp inp]⟩
  else if resp ≠ "" then
    if tries < m then
      ⟨Rule.otherNonEmpty, true, false, some 10, [genericRetryMsg resp inp tries m]⟩
    else
      ⟨Rule.otherNonEmpty, false, false, none, [genericMsg resp inp]⟩
  else
    ⟨Rule.blank, false, false, none, []⟩

/-- State of the retry loop: number of attempts performed so far, the
noOverlap flag, the sleeps performed, and the warnings logged. -/
structure LoopState where
  tries : Nat
  noOverlap : Bool
  sleeps : List Nat
  warnings : List String
deriving DecidableEq

/-- Loop state before the first attempt (tries = 0, noOverlap = False). -/
def initState : LoopState := ⟨0, false, [], []⟩

/-- The combined text blob of one attempt: decoded stdout concatenated
with decoded stderr (source lines 231-234). -/
def respText (p : String × String) : String := p.1 ++ p.2

/-- One iteration of the retry loop: perform attempt number tries + 1,
classify its combined output, and fold the effects into the state. -/
def loopStep (outputs : Nat → String × String) (out inp : String) (m : Nat)
    (st : LoopState) : StepOutcome × LoopState :=
  let o := classify (respText (outputs (st.tries + 1))) out inp (st.tries + 1) m
  (o, ⟨st.tries + 1, st.noOverlap || o.setsNoOverlap,
       st.sleeps ++ o.sleep.toList, st.warnings ++ o.warnings⟩)

/-- The while loop of source lines 223-294, structured by a fuel argument
(the source loop has no fuel; fuel-insensitivity is proved below, which
is the termination statement). -/
def loopGo (outputs : Nat → String × String) (out inp : String) (m : Nat) :
    Nat → LoopState → LoopState
  | 0, st => st
  | fuel + 1, st =>
    if (loopStep outputs out inp m st).1.nextTry then
      loopGo outputs out inp m fuel (loopStep outputs out inp m st).2
    else
      (loopStep outputs out inp m st).2

/-- The retry loop as run by main: max_tries = 10, starting from the
initial state (source lines 219-294). -/
def runLoop (outputs : Nat → String × String) (out inp : String) : LoopState :=
  loopGo outputs out inp 10 10 initState

/-- Option forwarding of source lines 207-210: every caller-supplied
option except newmapset and except options whose value is the empty
string (Python string truthiness) is kept, in dict insertion order. -/
def buildKwargs (options : List (String × String)) : List (String × String) :=
  options.filter (fun p => (p.1 != "newmapset") && (p.2 != ""))

/-- Flag concatenation of source lines 211-214: the letter codes of the
set flags, concatenated in dict insertion order. -/
def flagstrOf (flags : List (String × Bool)) : String :=
  flags.foldl (fun acc p => if p.2 then acc ++ p.1 else acc) ""

/-- A single-quote character, used to quote each forwarded option value. -/
def squote : String := String.singleton (Char.ofNat 39)

/-- Serialization of the kept options (source lines 216-218): each entry
contributes a leading space, the key, an equals sign, and the value in
single quotes. -/
def kwargsstrOf (kwargs : List (String × String)) : String :=
  kwargs.foldl (fun acc p => acc ++ " " ++ p.1 ++ "=" ++ squote ++ p.2 ++ squote) ""

/-- The five keys deleted from the captured region before it is reapplied
(source lines 198-202). -/
def strippedKeys : List String := ["cells", "rows", "cols", "zone", "projection"]

/-- The region dict passed to g.region in the new mapset (source
line 203): the captured region with the five derived keys deleted.  The
captured region is a dict, so its keys are unique and deleting a key is
filtering it out. -/
def regionToApply (reg : List (String × String)) : List (String × String) :=
  reg.filter (fun p => !(strippedKeys.contains p.1))

/-- Dict lookup on the parsed options, as in the Python subscripts; the
parser guarantees every declared key is present. -/
def getOpt (options : List (String × String)) (k : String) : String :=
  (options.lookup k).getD ""

/-- Inputs of one worker run.  The parsed options and flags are ordered
key-value lists (Python dicts iterate in insertion order); reg is the
region captured by grass.region before the mapset switch; outputs gives
the decoded stdout/stderr pair of each attempt of the r.import
subprocess; rasterFound and groupFound are the truthiness of the file
field of the two grass.find_file lookups; gisrc is the GISRC value
inherited from the caller and pid the worker process id. -/
structure MainInput where
  options : List (String × String)
  flags : List (String × Bool)
  reg : List (String × String)
  outputs : Nat → String × String
  rasterFound : Bool
  groupFound : Bool
  gisrc : String
  pid : Nat

/-- Observable results of one worker run. -/
structure MainResult where
  regionCaptured : Option (List (String × String))
  regionApplied : Option (List (String × String))
  flagstr : String
  cmd : String
  loop : LoopState
  fatal : Bool
  exitCode : Nat
  gisrcFinal : String
  newgisrcRemoved : Bool
deriving DecidableEq

/-- Embedding of main (source lines 160-313).  The private GISRC path is
the inherited one suffixed with the process id (line 183).  The region
is captured and reapplied only under extent=region (lines 188-203).  The
command line is built from the kept options only: flagstr is computed at
lines 211-214 but the invocation at line 226 interpolates kwargsstr
alone, so the flag string never reaches the command; it is recorded in
the result to state that fact.  After the retry loop, grass.fatal fires
iff neither the raster nor the group lookup found the output and the
noOverlap flag is unset (lines 296-309); grass.fatal aborts the process
with exit code 1, so on that path the cleanup of lines 311-312 never
runs: the private GISRC file is not removed and the GISRC variable still
holds the private path at exit.  On the non-fatal path the private file
is removed, GISRC is restored, and main returns 0. -/
def runMain (inp : MainInput) : MainResult :=
  let newgisrc := inp.gisrc ++ "_" ++ toString inp.pid
  let extent := getOpt inp.options "extent"
  let loop := runLoop inp.outputs (getOpt inp.options "output") (getOpt inp.options "input")
  let fatal := !inp.rasterFound && !inp.groupFound && !loop.noOverlap
  { regionCaptured := if extent = "region" then some inp.reg else none
    regionApplied := if extent = "region" then some (regionToApply inp.reg) else none
    flagstr := flagstrOf inp.flags
    cmd := "r.import --q " ++ kwargsstrOf (buildKwargs inp.options)
    loop := loop
    fatal := fatal
    exitCode := if fatal = true then 1 else 0
    gisrcFinal := if fatal = true then newgisrc else inp.gisrc
    newgisrcRemoved := !fatal }

/-- A representative parsed-option dict in declaration order, with a
blank output of every attempt and both artifact lookups empty. -/
def baseInput : MainInput :=
  { options := [("newmapset", "m1"), ("input", "a.tif"), ("output", "out1"),
                ("extent", "input")]
    flags := []
    reg := []
    outputs := fun _ => ("", "")
    rasterFound := false
    groupFound := false
    gisrc := "gisrc0"
    pid := 7 }

/-- Input exercising the fatal path: blank outputs, no artifact found. -/
def gisrcInput : MainInput := baseInput

/-- Input with the e and o flags set. -/
def flagsInput : MainInput :=
  { baseInput with flags := [("e", true), ("n", false), ("l", false), ("o", true)] }

/-- Input whose first attempt prints both the full progress ladder and
the no-overlap message. -/
def ladderOverlapInput : MainInput :=
  { baseInput with outputs := fun _ => (ladder ++ noOverlapMsg, "") }

/-- Input whose first attempt prints only the no-overlap message. -/
def noOverlapInput : MainInput :=
  { baseInput with outputs := fun _ => (noOverlapMsg, "") }

/-- Input whose first attempt prints the empty-reprojection message for
the configured output name, with no artifact found. -/
def emptyResultInput : MainInput :=
  { baseInput with outputs := fun _ => (emptyMsg "out1", "") }

/-- A captured region dict with all five derived keys and six others. -/
def sampleReg : List (String × String) :=
  [("n", "1"), ("s", "0"), ("e", "1"), ("w", "0"), ("nsres", "1"), ("ewres", "1"),
   ("rows", "10"), ("cols", "10"), ("cells", "100"), ("zone", "0"), ("projection", "99")]

/-- Input with extent=region and the sample captured region. -/
def regionExtentInput : MainInput :=
  { baseInput with
    options := [("newmapset", "m1"), ("input", "a.tif"), ("output", "out1"),
                ("extent", "region")]
    reg := sampleReg }

/-- Input with extent=input (the default). -/
def inputExtentInput : MainInput := baseInput

theorem loopGo_zero (outputs : Nat → String × String) (out inp : String) (m : Nat)
    (st : LoopState) : loopGo outputs out inp m 0 st = st := rfl

theorem loopGo_succ (outputs : Nat → String × String) (out inp : String) (m fuel : Nat)
    (st : LoopState) :
    loopGo outputs out inp m (fuel + 1) st =
      if (loopStep outputs out inp m st).1.nextTry then
        loopGo outputs out inp m fuel (loopStep outputs out inp m st).2
      else
        (loopStep outputs out inp m st).2 := rfl

theorem loopStep_fst (outputs : Nat → String × String) (out inp : String) (m : Nat)
    (st : LoopState) :
    (loopStep outputs out inp m st).1 =
      classify (respText (outputs (st.tries + 1))) out inp (st.tries + 1) m := rfl

theorem loopStep_snd (outputs : Nat → String × String) (out inp : String) (m : Nat)
    (st : LoopState) :
    (loopStep outputs out inp m st).2 =
      ⟨st.tries + 1, st.noOverlap || (loopStep outputs out inp m st).1.setsNoOverlap,
       st.sleeps ++ ((loopStep outputs out inp m st).1.sleep).toList,
       st.warnings ++ (loopStep outputs out inp m st).1.warnings⟩ := rfl

theorem classify_nextTry_lt (resp out inp : String) (t m : Nat)
    (h : (classify resp out inp t m).nextTry = true) : t < m := by
  unfold classify at h
  split_ifs at h <;> simp_all

theorem classify_sleep_eq (resp out inp : String) (t m : Nat) :
    (classify resp out inp t m).sleep =
      if (classify resp out inp t m).nextTry then some 10 else none := by
  unfold classify
  split_ifs <;> simp_all

theorem loopGo_spec (outputs : Nat → String × String) (out inp : String) (m : Nat) :
    ∀ fuel st, st.tries + fuel = m → st.tries < m →
      (st.tries + 1 ≤ (loopGo outputs out inp m fuel st).tries ∧
       (loopGo outputs out inp m fuel st).tries ≤ m) ∧
      (loopGo outputs out inp m fuel st).sleeps =
        st.sleeps ++
          List.replicate ((loopGo outputs out inp m fuel st).tries - st.tries - 1) 10 ∧
      ∀ extra, loopGo outputs out inp m (fuel + extra) st = loopGo outputs out inp m fuel st := by
  intro fuel
  induction fuel with
  | zero =>
    intro st h1 h2
    exfalso
    omega
  | succ fuel ih =>
    intro st h1 h2
    have ht2 : (loopStep outputs out inp m st).2.tries = st.tries + 1 := rfl
    by_cases hnt : (loopStep outputs out inp m st).1.nextTry = true
    · have hlt : st.tries + 1 < m := by
        refine classify_nextTry_lt (respText (outputs (st.tries + 1))) out inp
          (st.tries + 1) m ?_
        rw [← loopStep_fst]
        exact hnt
      have hso : (loopStep outputs out inp m st).1.sleep = some 10 := by
        rw [loopStep_fst] at hnt ⊢
        rw [classify_sleep_eq, if_pos hnt]
      have hsl : (loopStep outputs out inp m st).2.sleeps = st.sleeps ++ [10] := by
        show st.sleeps ++ ((loopStep outputs out inp m st).1.sleep).toList = _
        rw [hso]
        rfl
      obtain ⟨⟨ha, hb⟩, hs, hext⟩ := ih ((loopStep outputs out inp m st).2)
        (by rw [ht2]; omega) (by rw [ht2]; exact hlt)
      rw [ht2] at ha hs
      rw [loopGo_succ, if_pos hnt]
      refine ⟨⟨by omega, hb⟩, ?_, ?_⟩
      · rw [hs, hsl]
        have hrep : (loopGo outputs out inp m fuel (loopStep outputs out inp m st).2).tries
            - st.tries - 1
            = ((loopGo outputs out inp m fuel (loopStep outputs out inp m st).2).tries
              - (st.tries + 1) - 1) + 1 := by omega
        rw [hrep, List.replicate_succ, List.append_assoc]
        rfl
      · intro extra
        have harith : fuel + 1 + extra = (fuel + extra) + 1 := by omega
        rw [harith, loopGo_succ, if_pos hnt]
        exact hext extra
    · have hso : (loopStep outputs out inp m st).1.sleep = none := by
        rw [loopStep_fst] at hnt ⊢
        rw [classify_sleep_eq, if_neg hnt]
      have hsl : (loopStep outputs out inp m st).2.sleeps = st.sleeps := by
        show st.sleeps ++ ((loopStep outputs out inp m st).1.sleep).toList = _
        rw [hso]
        simp
      rw [loopGo_succ, if_neg hnt]
      refine ⟨⟨by omega, by omega⟩, ?_, ?_⟩
      · rw [hsl, ht2]
        simp
      · intro extra
        have harith : fuel + 1 + extra = (fuel + extra) + 1 := by omega
        rw [harith, loopGo_succ, if_neg hnt]

/-- C1: for every sequence of import-tool outputs the retry loop performs
at least 1 and at most 10 attempts (1 initial plus at most 9 retries),
sleeps a fixed 10 time units exactly once between consecutive attempts
(no exponential growth), and terminates: giving the loop any amount of
extra fuel does not change its result. -/
theorem retry_budget_bounded (outputs : Nat → String × String) (out inp : String) :
    1 ≤ (runLoop outputs out inp).tries ∧
    (runLoop outputs out inp).tries ≤ 10 ∧
    (runLoop outputs out inp).sleeps =
      List.replicate ((runLoop outputs out inp).tries - 1) 10 ∧
    ∀ extra, loopGo outputs out inp 10 (10 + extra) initState = runLoop outputs out inp := by
  unfold runLoop
  obtain ⟨⟨ha, hb⟩, hs, hext⟩ :=
    loopGo_spec outputs out inp 10 10 initState rfl (by decide)
  have h0 : initState.tries = 0 := rfl
  have h1 : initState.sleeps = [] := rfl
  rw [h0, h1] at hs
  rw [h0] at ha
  refine ⟨by omega, hb, ?_, hext⟩
  simpa using hs

/-- C2: the combined blob of one attempt is decoded stdout concatenated
with decoded stderr, and it is classified by substring matching in the
fixed precedence order success ladder, no-overlap, empty-reprojection for
the configured output, compression-library token with budget remaining,
503, other non-empty, blank: each rule fires exactly when its marker
matches and no earlier rule matched, and the rule that fired determines
whether the loop retries or stops. -/
theorem classification_precedence (resp out inp : String) (t m : Nat) :
    (∀ s e : String, respText (s, e) = s ++ e) ∧
    ((classify resp out inp t m).rule = Rule.successLadder ↔ strIn ladder resp = true) ∧
    ((classify resp out inp t m).rule = Rule.noOverlap ↔
      (strIn ladder resp = false ∧ strIn noOverlapMsg resp = true)) ∧
    ((classify resp out inp t m).rule = Rule.emptyResult ↔
      (strIn ladder resp = false ∧ strIn noOverlapMsg resp = false ∧
       strIn (emptyMsg out) resp = true)) ∧
    ((classify resp out inp t m).rule = Rule.gzipRetry ↔
      (strIn ladder resp = false ∧ strIn noOverlapMsg resp = false ∧
       strIn (emptyMsg out) resp = false ∧ strIn gzipToken resp = true ∧ t < m)) ∧
    ((classify resp out inp t m).rule = Rule.http503 ↔
      (strIn ladder resp = false ∧ strIn noOverlapMsg resp = false ∧
       strIn (emptyMsg out) resp = false ∧ ¬(strIn gzipToken resp = true ∧ t < m) ∧
       strIn s503 resp = true)) ∧
    ((classify resp out inp t m).rule = Rule.otherNonEmpty ↔
      (strIn ladder resp = false ∧ strIn noOverlapMsg resp = false ∧
       strIn (emptyMsg out) resp = false ∧ ¬(strIn gzipToken resp = true ∧ t < m) ∧
       strIn s503 resp = false ∧ resp ≠ "")) ∧
    ((classify resp out inp t m).rule = Rule.blank ↔
      (strIn ladder resp = false ∧ strIn noOverlapMsg resp = false ∧
       strIn (emptyMsg out) resp = false ∧ ¬(strIn gzipToken resp = true ∧ t < m) ∧
       strIn s503 resp = false ∧ resp = "")) ∧
    ((classify resp out inp t m).nextTry = true ↔
      ((classify resp out inp t m).rule = Rule.gzipRetry ∨
       (((classify resp out inp t m).rule = Rule.http503 ∨
         (classify resp out inp t m).rule = Rule.otherNonEmpty) ∧ t < m))) := by
  unfold classify
  split_ifs <;> simp_all [respText]

/-- C3: a fatal, process-aborting error is raised if and only if, after
the retry loop ends, the output was found neither as a raster nor as a
group and the noOverlap flag was not set; the exit code is 1 exactly on
the fatal path and 0 otherwise, so no classification outcome inside the
loop raises by itself. -/
theorem fatal_iff_artifact_missing (inp : MainInput) :
    ((runMain inp).fatal = true ↔
      (inp.rasterFound = false ∧ inp.groupFound = false ∧
       (runMain inp).loop.noOverlap = false)) ∧
    (runMain inp).exitCode = if (runMain inp).fatal = true then 1 else 0 := by
  constructor
  · simp only [runMain]
    simp [Bool.and_eq_true, Bool.not_eq_true', and_assoc]
  · rfl

/-- C9: an option appears among the forwarded key-value pairs exactly
when it is caller-supplied, is not the workspace-name option, and has a
non-empty value; the invocation string is built from exactly these
pairs. -/
theorem empty_valued_options_omitted (options : List (String × String))
    (k v : String) (inp : MainInput) :
    ((k, v) ∈ buildKwargs options ↔
      ((k, v) ∈ options ∧ k ≠ "newmapset" ∧ v ≠ "")) ∧
    (runMain inp).cmd = "r.import --q " ++ kwargsstrOf (buildKwargs inp.options) := by
  constructor
  · simp [buildKwargs, List.mem_filter, Bool.and_eq_true, bne_iff_ne, and_assoc]
  · rfl

/-- C4: on the fatal artifact-missing path the worker aborts inside
grass.fatal before the cleanup lines run, so the GISRC pointer is NOT
restored to its original value and the private GISRC copy is not
removed: at this concrete input the run is fatal and GISRC still holds
the per-process path at exit. -/
theorem gisrc_not_restored_on_fatal :
    (runMain gisrcInput).fatal = true ∧
    (runMain gisrcInput).gisrcFinal ≠ gisrcInput.gisrc ∧
    (runMain gisrcInput).gisrcFinal = "gisrc0_7" ∧
    (runMain gisrcInput).newgisrcRemoved = false := by decide

/-- C5: the letter codes of the set flags are concatenated into flagstr,
but the invocation string interpolates only the serialized options, so
the flags never reach the r.import command line: with flags e and o set,
flagstr is eo while the command is exactly the options-only string and
does not contain eo. -/
theorem flags_never_reach_cmd :
    (runMain flagsInput).flagstr = "eo" ∧
    (runMain flagsInput).cmd =
      "r.import --q " ++ " input=" ++ squote ++ "a.tif" ++ squote ++
        " output=" ++ squote ++ "out1" ++ squote ++
        " extent=" ++ squote ++ "input" ++ squote ∧
    strIn (runMain flagsInput).flagstr (runMain flagsInput).cmd = false := by decide

/-- C7: when the combined output of the first attempt is exactly the
empty-reprojection message for the configured output and no artifact
exists, the loop stops after one attempt with only the no-data warning,
the noOverlap flag stays unset, and the final check raises the fatal
error (exit code 1): the verification step does not treat the
empty-result outcome as success. -/
theorem fatal_on_empty_result :
    strIn (emptyMsg (getOpt emptyResultInput.options "output"))
      (respText (emptyResultInput.outputs 1)) = true ∧
    (runMain emptyResultInput).loop.tries = 1 ∧
    (runMain emptyResultInput).loop.warnings = [emptyWarning "a.tif"] ∧
    (runMain emptyResultInput).loop.noOverlap = false ∧
    (runMain emptyResultInput).fatal = true ∧
    (runMain emptyResultInput).exitCode = 1 := by decide

/-- C6 counterexample: a first attempt whose combined output contains
the no-overlap message but also the full progress ladder is classified
by the earlier success rule, so no warning is logged, the noOverlap flag
stays unset, and with no artifact present the worker exits 1, not 0 —
refuting the claim as stated. -/
theorem noOverlap_shadowed_counterexample :
    strIn noOverlapMsg (respText (ladderOverlapInput.outputs 1)) = true ∧
    (runMain ladderOverlapInput).loop.tries = 1 ∧
    (runMain ladderOverlapInput).loop.warnings = [] ∧
    (runMain ladderOverlapInput).loop.noOverlap = false ∧
    (runMain ladderOverlapInput).exitCode = 1 := by decide

theorem classify_noOverlap_eq (resp out inp : String) (t m : Nat)
    (h1 : strIn noOverlapMsg resp = true) (h2 : strIn ladder resp = false) :
    classify resp out inp t m =
      ⟨Rule.noOverlap, false, true, none, [noOverlapWarning inp]⟩ := by
  unfold classify
  rw [if_neg (by simp [h2]), if_pos h1]

/-- C6 (amended): if the combined output of the first attempt contains
the no-overlap message and does not contain the success marker, then
exactly one invocation occurs, the noOverlap flag is set, the no-overlap
warning naming the input is the only logged warning, and the worker
completes with exit code 0 regardless of whether the output artifact
exists. -/
theorem noOverlap_first_attempt (inp : MainInput)
    (h1 : strIn noOverlapMsg (respText (inp.outputs 1)) = true)
    (h2 : strIn ladder (respText (inp.outputs 1)) = false) :
    (runMain inp).loop.tries = 1 ∧
    (runMain inp).loop.noOverlap = true ∧
    (runMain inp).loop.warnings =
      [noOverlapWarning (getOpt inp.options "input")] ∧
    (runMain inp).fatal = false ∧
    (runMain inp).exitCode = 0 := by
  have hcl : classify (respText (inp.outputs 1)) (getOpt inp.options "output")
      (getOpt inp.options "input") 1 10 =
      ⟨Rule.noOverlap, false, true, none,
       [noOverlapWarning (getOpt inp.options "input")]⟩ :=
    classify_noOverlap_eq _ _ _ 1 10 h1 h2
  have hstep : (loopStep inp.outputs (getOpt inp.options "output")
      (getOpt inp.options "input") 10 initState).1 =
      ⟨Rule.noOverlap, false, true, none,
       [noOverlapWarning (getOpt inp.options "input")]⟩ := by
    rw [loopStep_fst]
    exact hcl
  have hloop : runLoop inp.outputs (getOpt inp.options "output")
      (getOpt inp.options "input") =
      ⟨1, true, [], [noOverlapWarning (getOpt inp.options "input")]⟩ := by
    show loopGo inp.outputs (getOpt inp.options "output")
      (getOpt inp.options "input") 10 (9 + 1) initState = _
    rw [loopGo_succ, loopStep_snd, hstep]
    simp [initState]
  refine ⟨?_, ?_, ?_, ?_, ?_⟩ <;> simp [runMain, hloop]

/-- C6 witness: at a concrete input whose first attempt prints exactly
the no-overlap message and whose artifact lookups find nothing, one
attempt occurs and the worker exits 0. -/
theorem noOverlap_first_attempt_witness :
    (runMain noOverlapInput).loop.tries = 1 ∧
    (runMain noOverlapInput).exitCode = 0 := by
  have h := noOverlap_first_attempt noOverlapInput (by decide) (by decide)
  exact ⟨h.1, h.2.2.2.2⟩

/-- C8 (amended): under extent=region the captured region is the
pre-switch region and the region applied in the new mapset is the
captured region with the five derived keys (cells, rows, cols, zone,
projection) stripped, every other entry carried over unchanged; under
extent=input no region is captured or reapplied. -/
theorem region_propagation (inp : MainInput) :
    (getOpt inp.options "extent" = "region" →
      (runMain inp).regionCaptured = some inp.reg ∧
      (runMain inp).regionApplied = some (regionToApply inp.reg) ∧
      (∀ k v, (k, v) ∈ regionToApply inp.reg ↔
        ((k, v) ∈ inp.reg ∧ ¬k ∈ strippedKeys))) ∧
    (getOpt inp.options "extent" = "input" →
      (runMain inp).regionCaptured = none ∧
      (runMain inp).regionApplied = none) := by
  constructor
  · intro h
    refine ⟨by simp [runMain, h], by simp [runMain, h], ?_⟩
    intro k v
    simp [regionToApply, List.mem_filter]
  · intro h
    constructor <;> simp [runMain, h]

/-- C8 witness: at a concrete extent=region input the applied region is
the stripped captured region, and at a concrete extent=input input no
region is applied. -/
theorem region_propagation_witness :
    (runMain regionExtentInput).regionApplied =
      some (regionToApply regionExtentInput.reg) ∧
    (runMain inputExtentInput).regionApplied = none :=
  ⟨((region_propagation regionExtentInput).1 (by decide)).2.1,
   ((region_propagation inputExtentInput).2 (by decide)).2⟩

/-- C8 counterexample: on a captured region carrying all derived keys,
the applied region drops exactly five entries, not four, refuting the
claimed count of stripped fields. -/
theorem five_fields_stripped :
    sampleReg.length = 11 ∧ (regionToApply sampleReg).length = 6 ∧
    sampleReg.length - (regionToApply sampleReg).length = 5 ∧
    sampleReg.length - (regionToApply sampleReg).length ≠ 4 := by decide

theorem isPrefixOf_self (l : List Char) : l.isPrefixOf l = true := by
  induction l with
  | nil => rfl
  | cons a t ih => simp [List.isPrefixOf, ih]

theorem containsSub_self (l : List Char) : containsSub l l = true := by
  cases l with
  | nil => rfl
  | cons c t => simp [containsSub, isPrefixOf_self]

theorem strIn_refl (s : String) : strIn s s = true := containsSub_self s.data

theorem emptyMsg_ne_empty (x : String) : emptyMsg x ≠ "" := by
  intro hcontra
  have hlen : (emptyMsg x).length = 0 := by rw [hcontra]; rfl
  rw [emptyMsg, String.length_append, String.length_append] at hlen
  have h1 : ("The reprojected raster <" : String).length = 24 := by decide
  have h2 : ("> is empty" : String).length = 10 := by decide
  omega

/-- C10: on a blob that is the empty-reprojection message for raster x
and carries none of the earlier or later markers, the empty-result rule
fires exactly when the message for the configured output occurs in the
blob — in particular it fires when x is the configured output — and when
it does not occur the blob falls through to the generic non-empty rule,
which retries exactly while budget remains. -/
theorem empty_marker_parameterized (x out inp : String) (t m : Nat)
    (hl : strIn ladder (emptyMsg x) = false)
    (hn : strIn noOverlapMsg (emptyMsg x) = false)
    (hg : strIn gzipToken (emptyMsg x) = false)
    (h5 : strIn s503 (emptyMsg x) = false) :
    ((classify (emptyMsg x) out inp t m).rule = Rule.emptyResult ↔
      strIn (emptyMsg out) (emptyMsg x) = true) ∧
    (x = out → (classify (emptyMsg x) out inp t m).rule = Rule.emptyResult) ∧
    (strIn (emptyMsg out) (emptyMsg x) = false →
      (classify (emptyMsg x) out inp t m).rule = Rule.otherNonEmpty ∧
      ((classify (emptyMsg x) out inp t m).nextTry = true ↔ t < m)) := by
  unfold classify
  rw [if_neg (by simp [hl]), if_neg (by simp [hn])]
  by_cases hm : strIn (emptyMsg out) (emptyMsg x) = true
  · rw [if_pos hm]
    refine ⟨by simp [hm], fun _ => rfl, ?_⟩
    intro hf
    rw [hf] at hm
    exact absurd hm (by simp)
  · rw [if_neg hm, if_neg (by simp [hg]), if_neg (by simp [h5]),
      if_pos (emptyMsg_ne_empty x)]
    refine ⟨?_, ?_, ?_⟩
    · constructor
      · intro hrule
        exfalso
        split_ifs at hrule
      · intro hmt
        exact absurd hmt hm
    · intro hxo
      exact absurd (by rw [hxo]; exact strIn_refl (emptyMsg out)) hm
    · intro _
      constructor
      · split_ifs <;> rfl
      · split_ifs with ht
        · simp [ht]
        · simp [ht]

/-- C10 witness: the empty-reprojection message naming a different
raster is classified by the generic non-empty rule, while the message
naming the configured output is classified as the empty result. -/
theorem empty_marker_parameterized_witness :
    (classify (emptyMsg "aaa") "bbb" "c.tif" 1 10).rule = Rule.otherNonEmpty ∧
    (classify (emptyMsg "bbb") "bbb" "c.tif" 1 10).rule = Rule.emptyResult := by
  constructor
  · exact ((empty_marker_parameterized "aaa" "bbb" "c.tif" 1 10 (by decide) (by decide)
      (by decide) (by decide)).2.2 (by decide)).1
  · exact (empty_marker_parameterized "bbb" "bbb" "c.tif" 1 10 (by decide) (by decide)
      (by decide) (by decide)).2.1 rfl
